import Mathlib

/-!
Shallow embedding of the Session state machine of
`src/packages/simple-auth/lib/simple-auth/session.js`.

The Session (an Ember ObjectProxy with Evented) keeps `isAuthenticated`,
`authenticatorFactory`, `content`, talks to a Store (persist/replace,
restore, clear) and to a pluggable Authenticator looked up by factory
name.  JavaScript objects holding session data are modelled as
association lists `List (String × String)` with first-match lookup
(JavaScript objects have no duplicate keys, so first-match agrees with
object semantics on every list the model actually builds).  Promises
returned by the Authenticator are modelled by an oracle argument
(`AuthResult` / `InvResult`) giving the outcome the environment chose;
the promise returned by a Session operation is modelled by `PResult`,
where `PResult.rejected none` is a JavaScript `reject()` with no
argument and `PResult.rejected (some e)` is `reject(e)`.

Event-handler bookkeeping on the Authenticator (bindToAuthenticatorEvents,
`authenticator.off(...)`) is tracked per factory name as a pair of handler
counts, because several claims are about which subscriptions stay live.
-/

namespace SimpleAuth

abbrev Key := String
abbrev Val := String
abbrev Err := String

/-- A JavaScript object holding session data: association list with
first-match lookup. -/
abbrev Content := List (Key × Val)

/-- Per-authenticator count of live event subscriptions: how many
handlers are currently attached for its sessionDataUpdated event and for
its sessionDataInvalidated event. -/
structure Subs where
  updated : Nat
  invalidated : Nat
deriving DecidableEq, Repr

/-- Handler bookkeeping for every authenticator, keyed by factory name. -/
abbrev SubsMap := List (String × Subs)

/-- The subscription counts of authenticator `a` (zero when never bound). -/
def getSubs (m : SubsMap) (a : String) : Subs :=
  (m.lookup a).getD ⟨0, 0⟩

/-- Replace the subscription counts of authenticator `a`. -/
def setSubs (m : SubsMap) (a : String) (v : Subs) : SubsMap :=
  (a, v) :: m.filter (fun p => p.1 != a)

/-- The session state: the proxy's own properties (`isAuthenticated`,
`authenticatorFactory`, `content`), the Store's persisted snapshot
(`storeData`), and the authenticator event-handler bookkeeping (`subs`).
`authenticatorFactory = none` is the JavaScript `null`. -/
structure SessionState where
  isAuthenticated : Bool
  authenticatorFactory : Option String
  content : Content
  storeData : Content
  subs : SubsMap
deriving DecidableEq, Repr

/-- Lifecycle events the Session triggers on itself. -/
inductive Event where
  | sessionAuthenticationSucceeded
  | sessionAuthenticationFailed (e : Err)
  | sessionInvalidationSucceeded
  | sessionInvalidationFailed (e : Err)
deriving DecidableEq, Repr

/-- Settlement of the promise a Session operation returns.
`rejected none` models `reject()` called with no argument. -/
inductive PResult where
  | resolved
  | rejected (e : Option Err)
deriving DecidableEq, Repr

/-- Outcome the environment chose for an Authenticator `authenticate` or
`restore` call: resolve with content, or reject with an error payload. -/
inductive AuthResult where
  | success (c : Content)
  | failure (e : Err)
deriving DecidableEq, Repr

/-- Outcome the environment chose for an Authenticator `invalidate`
call: resolve (with no value), or reject with an error payload. -/
inductive InvResult where
  | success
  | failure (e : Err)
deriving DecidableEq, Repr

/-- Result of an internal transition (`setup` / `clear` / an event
handler): the new state and the events triggered, in order. -/
structure TransOut where
  state : SessionState
  events : List Event
deriving DecidableEq, Repr

/-- Result of a promise-returning operation: new state, events triggered,
and the settlement of the returned promise. -/
structure OpOut where
  state : SessionState
  events : List Event
  result : PResult
deriving DecidableEq, Repr

/-- Session.js line 243: `Ember.$.extend({ authenticatorFactory: f }, c)`.
jQuery extend copies every key of `c` onto the target object
`{authenticatorFactory: f}`, so `c`'s entries win on collision.  With
first-match lookup, appending the factory entry after `c` realises
exactly that key-to-value map. -/
def extendFactory (f : String) (c : Content) : Content :=
  c ++ [("authenticatorFactory", f)]

/-- Session.js lines 274-285, effect on handler bookkeeping:
`bindToAuthenticatorEvents` looks up the authenticator `f`, calls
`off('sessionDataUpdated')` and `off('sessionDataInvalidated')` (dropping
every handler for the two events), then `on(...)` for each (attaching one
fresh handler each), so `f` ends with exactly one handler per event. -/
def bindToAuthenticatorEvents (m : SubsMap) (f : String) : SubsMap :=
  setSubs m f ⟨1, 1⟩

/-- Session.js line 195, inside the success branch of `invalidate`:
`authenticator.off('sessionDataUpdated')` — only the sessionDataUpdated
handlers of the current authenticator are dropped; the
sessionDataInvalidated handlers are left untouched. -/
def offSessionDataUpdated (m : SubsMap) (f : String) : SubsMap :=
  setSubs m f ⟨0, (getSubs m f).invalidated⟩

/-- Session.js lines 234-249, `setup(authenticatorFactory, content, trigger)`:
reads `trigger = !!trigger && !this.get('isAuthenticated')` first, then in
a property batch sets `isAuthenticated := true`, `authenticatorFactory`,
`content`, calls `bindToAuthenticatorEvents`, builds
`Ember.$.extend({authenticatorFactory}, this.content)` and writes it to
the store with `store.replace`, and finally fires
`sessionAuthenticationSucceeded` when `trigger` held.

When the factory argument is `null` (reachable through the stale
authenticator sessionDataUpdated handler after an external clear), the
`container.lookup(null)` inside `bindToAuthenticatorEvents` fails, so the
run stops right after `setProperties`: the three properties are already
mutated, but no handler bookkeeping changes, no store write happens and
no event fires. -/
def setup (s : SessionState) (f : Option String) (c : Content) (trigger : Bool) : TransOut :=
  let doTrigger := trigger && !s.isAuthenticated
  let s1 := { s with isAuthenticated := true, authenticatorFactory := f, content := c }
  match f with
  | none => ⟨s1, []⟩
  | some ff =>
      let s2 := { s1 with subs := bindToAuthenticatorEvents s1.subs ff,
                          storeData := extendFactory ff s1.content }
      ⟨s2, if doTrigger then [Event.sessionAuthenticationSucceeded] else []⟩

/-- Session.js lines 255-268, `clear(trigger)`: reads
`trigger = !!trigger && this.get('isAuthenticated')` first, then resets
`isAuthenticated := false`, `authenticatorFactory := null`,
`content := {}`, calls `store.clear()`, and fires
`sessionInvalidationSucceeded` when `trigger` held.  No authenticator
handler is unbound here. -/
def clear (s : SessionState) (trigger : Bool) : TransOut :=
  let doTrigger := trigger && s.isAuthenticated
  ⟨{ s with isAuthenticated := false, authenticatorFactory := none,
            content := [], storeData := [] },
   if doTrigger then [Event.sessionInvalidationSucceeded] else []⟩

/-- Session.js lines 157-170, `authenticate(authenticatorFactory, options)`
(after the `Ember.assert` that the factory is non-empty): delegates to the
authenticator; on resolve with `content` runs `setup(factory, content, true)`
and resolves; on reject with `error` runs `clear()` (no trigger argument,
hence no event from clear), fires `sessionAuthenticationFailed(error)` and
rejects with that error. -/
def authenticate (s : SessionState) (f : String) (r : AuthResult) : OpOut :=
  match r with
  | .success c =>
      let t := setup s (some f) c true
      ⟨t.state, t.events, .resolved⟩
  | .failure e =>
      let t := clear s false
      ⟨t.state, t.events ++ [Event.sessionAuthenticationFailed e], .rejected (some e)⟩

/-- Session.js lines 190-203, `invalidate()`: looks up
`container.lookup(this.authenticatorFactory)` — undefined behaviour when
the factory is `null` (misuse), modelled as `none` — and calls its
`invalidate(this.content)`.  On resolve: `authenticator.off('sessionDataUpdated')`,
then `clear(true)`, then resolve.  On reject with `error`: fires
`sessionInvalidationFailed(error)` and rejects with that error, leaving
the state untouched. -/
def invalidate (s : SessionState) (r : InvResult) : Option OpOut :=
  match s.authenticatorFactory with
  | none => none
  | some f =>
      match r with
      | .success =>
          let s1 := { s with subs := offSessionDataUpdated s.subs f }
          let t := clear s1 true
          some ⟨t.state, t.events, .resolved⟩
      | .failure e =>
          some ⟨s, [Event.sessionInvalidationFailed e], .rejected (some e)⟩

/-- JavaScript truthiness of `restoredContent.authenticatorFactory`: a
missing key or an empty string is falsy. -/
def truthyFactory (v : Option Val) : Option String :=
  match v with
  | some f => if f = "" then none else some f
  | none => none

/-- Session.js line 215 / 296: `delete content.authenticatorFactory`. -/
def deleteKey (k : Key) (c : Content) : Content :=
  c.filter (fun p => p.1 != k)

/-- Session.js lines 209-228, `restore()`: reads the store snapshot; if it
carries a truthy `authenticatorFactory`, strips it (the stripped remainder
`deleteKey "authenticatorFactory" s.storeData` is what the authenticator's
own `restore` receives; its outcome is the oracle `r`) and delegates.
On resolve with `content` runs `setup(factory, content)` — two arguments,
so no success event can fire — and resolves.  On reject it runs
`store.clear()` and calls `reject()` with NO argument, dropping the
authenticator's error.  With no truthy factory in the snapshot it also
runs `store.clear()` and rejects with no argument. -/
def restore (s : SessionState) (r : AuthResult) : OpOut :=
  match truthyFactory (s.storeData.lookup "authenticatorFactory") with
  | some f =>
      match r with
      | .success c =>
          let t := setup s (some f) c false
          ⟨t.state, t.events, .resolved⟩
      | .failure _ =>
          ⟨{ s with storeData := [] }, [], .rejected none⟩
  | none => ⟨{ s with storeData := [] }, [], .rejected none⟩

/-- Session.js lines 291-306, the handler `bindToStoreEvents` registers
once at init for the Store's sessionDataUpdated event: if the pushed
payload carries a truthy `authenticatorFactory`, strip it and delegate to
that authenticator's `restore` (oracle `r`); on resolve run
`setup(factory, content, true)`, on reject run `clear(true)`.  With no
truthy factory, run `clear(true)` directly. -/
def storeUpdated (s : SessionState) (pushed : Content) (r : AuthResult) : TransOut :=
  match truthyFactory (pushed.lookup "authenticatorFactory") with
  | some f =>
      match r with
      | .success c => setup s (some f) c true
      | .failure _ => clear s true
  | none => clear s true

/-- Session.js lines 279-281, the handler attached for an authenticator's
sessionDataUpdated event: `_this.setup(_this.authenticatorFactory, content)` —
it reads the CURRENT factory property (possibly `null` by the time the
event fires), and passes no trigger argument. -/
def authenticatorUpdated (s : SessionState) (c : Content) : TransOut :=
  setup s s.authenticatorFactory c false

/-- Session.js lines 282-284, the handler attached for an authenticator's
sessionDataInvalidated event: `_this.clear(true)`. -/
def authenticatorInvalidated (s : SessionState) : TransOut :=
  clear s true

/-- The state right after `init` (lines 102-138): unauthenticated, null
factory, empty content, store event handler bound; fresh empty store. -/
def initState : SessionState :=
  { isAuthenticated := false, authenticatorFactory := none, content := [],
    storeData := [], subs := [] }

/-- One observable transition of the Session: a public operation whose
promise settled (with an environment-chosen authenticator outcome), or an
externally pushed Store/Authenticator event.  The private `setup` and
`clear` only ever run inside these transitions, with the arguments these
call sites pass.  An authenticator event can only be delivered while a
handler for it is attached (`getSubs`-count at least one); the handler
body uses the session's current factory, not the emitting authenticator. -/
inductive Step : SessionState → SessionState → Prop where
  | authenticate (s : SessionState) (f : String) (r : AuthResult) (hf : f ≠ "") :
      Step s (SimpleAuth.authenticate s f r).state
  | invalidate (s : SessionState) (r : InvResult) (out : OpOut)
      (h : SimpleAuth.invalidate s r = some out) :
      Step s out.state
  | restore (s : SessionState) (r : AuthResult) :
      Step s (SimpleAuth.restore s r).state
  | storeUpdated (s : SessionState) (pushed : Content) (r : AuthResult) :
      Step s (SimpleAuth.storeUpdated s pushed r).state
  | authUpdated (s : SessionState) (a : String) (c : Content)
      (h : 1 ≤ (getSubs s.subs a).updated) :
      Step s (authenticatorUpdated s c).state
  | authInvalidated (s : SessionState) (a : String)
      (h : 1 ≤ (getSubs s.subs a).invalidated) :
      Step s (authenticatorInvalidated s).state

/-- States reachable from a fresh session by any sequence of operations
and externally pushed events. -/
def Reachable (s : SessionState) : Prop :=
  Relation.ReflTransGen Step initState s

/-- Same transitions as `Step`, except that an authenticator-pushed
sessionDataUpdated event is only delivered while an authenticator factory
is actually bound (the well-behaved-environment restriction under which
invariant I1 is provable). -/
inductive StepSafe : SessionState → SessionState → Prop where
  | authenticate (s : SessionState) (f : String) (r : AuthResult) (hf : f ≠ "") :
      StepSafe s (SimpleAuth.authenticate s f r).state
  | invalidate (s : SessionState) (r : InvResult) (out : OpOut)
      (h : SimpleAuth.invalidate s r = some out) :
      StepSafe s out.state
  | restore (s : SessionState) (r : AuthResult) :
      StepSafe s (SimpleAuth.restore s r).state
  | storeUpdated (s : SessionState) (pushed : Content) (r : AuthResult) :
      StepSafe s (SimpleAuth.storeUpdated s pushed r).state
  | authUpdated (s : SessionState) (a : String) (c : Content)
      (h : 1 ≤ (getSubs s.subs a).updated)
      (hb : s.authenticatorFactory ≠ none) :
      StepSafe s (authenticatorUpdated s c).state
  | authInvalidated (s : SessionState) (a : String)
      (h : 1 ≤ (getSubs s.subs a).invalidated) :
      StepSafe s (authenticatorInvalidated s).state

/-- States reachable from a fresh session when authenticator
sessionDataUpdated events are only delivered while a factory is bound. -/
def ReachableSafe (s : SessionState) : Prop :=
  Relation.ReflTransGen StepSafe initState s

/-- Concrete run: fresh session, `authenticate("password", …)` where the
authenticator resolved with `{token: "xyz"}`. -/
def exS1 : SessionState :=
  (authenticate initState "password" (AuthResult.success [("token", "xyz")])).state

/-- Then the Store pushes sessionDataUpdated with a payload carrying no
factory (for example another tab wiped storage), so the handler runs
`clear(true)`. -/
def exS2 : SessionState :=
  (storeUpdated exS1 [] (AuthResult.failure "unused")).state

/-- Then the "password" authenticator — whose handlers are still bound,
since `clear` unbinds nothing — pushes sessionDataUpdated, so the stale
handler runs `setup(null, content)`. -/
def exS3 : SessionState :=
  (authenticatorUpdated exS2 [("token", "stale")]).state

/-- Concrete state whose store snapshot carries a persisted session for
factory "token" (as after a reload with persisted storage). -/
def exStore : SessionState :=
  { initState with storeData := [("authenticatorFactory", "token"), ("token", "abc")] }

/-! Helper lemmas about association-list lookup and the subscription map. -/

theorem lookup_append_of_eq_some {c l : Content} {k : Key} {v : Val}
    (h : c.lookup k = some v) : (c ++ l).lookup k = some v := by
  induction c with
  | nil => simp [List.lookup] at h
  | cons p cs ih =>
      obtain ⟨pk, pv⟩ := p
      rw [List.cons_append]
      rw [List.lookup] at h ⊢
      cases hk : (k == pk) with
      | true => rw [hk] at h; simpa [hk] using h
      | false => rw [hk] at h; simpa [hk] using ih h

theorem lookup_filter_ne (m : SubsMap) (a b : String) (h : b ≠ a) :
    List.lookup b (m.filter (fun p => p.1 != a)) = List.lookup b m := by
  induction m with
  | nil => rfl
  | cons p l ih =>
      obtain ⟨pk, pv⟩ := p
      by_cases hp : pk = a
      · subst hp
        have hb : (b == pk) = false := beq_false_of_ne h
        simp [List.filter_cons, List.lookup, hb, ih]
      · have : ((pk, pv).1 != a) = true := by simpa using hp
        rw [List.filter_cons, if_pos this]
        rw [List.lookup, List.lookup]
        cases hk : (b == pk) with
        | true => rfl
        | false => exact ih

theorem getSubs_setSubs_self (m : SubsMap) (a : String) (v : Subs) :
    getSubs (setSubs m a v) a = v := by
  simp [getSubs, setSubs, List.lookup]

theorem getSubs_setSubs_other (m : SubsMap) (a b : String) (v : Subs) (h : b ≠ a) :
    getSubs (setSubs m a v) b = getSubs m b := by
  have hb : (b == a) = false := beq_false_of_ne h
  simp [getSubs, setSubs, List.lookup, hb, lookup_filter_ne m a b h]

/-- C4: on an authenticator rejection inside `authenticate`, the session
ends unauthenticated with empty content, the store is cleared, exactly
the event sessionAuthenticationFailed with the authenticator's error is
fired, and the returned promise rejects with exactly that error. -/
theorem authenticate_failure_behavior (s : SessionState) (f : String) (e : Err)
    (_hf : f ≠ "") :
    (authenticate s f (AuthResult.failure e)).state.isAuthenticated = false
    ∧ (authenticate s f (AuthResult.failure e)).state.content = []
    ∧ (authenticate s f (AuthResult.failure e)).state.storeData = []
    ∧ (authenticate s f (AuthResult.failure e)).events
        = [Event.sessionAuthenticationFailed e]
    ∧ (authenticate s f (AuthResult.failure e)).result = PResult.rejected (some e) := by
  simp [authenticate, clear]

/-- Witness for C4 at a concrete call: authenticate from the state of the
running example with factory "password" and error "bad credentials". -/
theorem authenticate_failure_behavior_witness :
    (authenticate exS1 "password" (AuthResult.failure "bad credentials")).result
      = PResult.rejected (some "bad credentials") :=
  (authenticate_failure_behavior exS1 "password" "bad credentials" (by decide)).2.2.2.2

/-- C7: `setup` with a (non-null) factory fires
sessionAuthenticationSucceeded exactly when its trigger argument is true
and the session was not authenticated immediately before the call; in
particular a successful `authenticate` performed while already
authenticated (re-authentication, with any factory) emits no
sessionAuthenticationSucceeded. -/
theorem setup_triggers_succeeded_iff (s : SessionState) (f : String) (c : Content) (t : Bool) :
    (Event.sessionAuthenticationSucceeded ∈ (setup s (some f) c t).events
        ↔ (t = true ∧ s.isAuthenticated = false))
    ∧ (s.isAuthenticated = true →
        Event.sessionAuthenticationSucceeded ∉ (authenticate s f (AuthResult.success c)).events) := by
  constructor
  · cases t <;> cases h : s.isAuthenticated <;> simp [setup, h]
  · intro h
    simp [authenticate, setup, h]

/-- Witness for C7: applying the theorem at the already-authenticated
example state shows a repeated successful authenticate emits no
sessionAuthenticationSucceeded. -/
theorem setup_triggers_succeeded_iff_witness :
    Event.sessionAuthenticationSucceeded
      ∉ (authenticate exS1 "other" (AuthResult.success [("token", "new")])).events :=
  (setup_triggers_succeeded_iff exS1 "other" [("token", "new")] true).2 (by decide)

/-- C8: running `clear(true)` twice in a row emits
sessionInvalidationSucceeded at most once over the two calls, and the
second call (made while already unauthenticated) emits no event at all. -/
theorem clear_twice_single_event (s : SessionState) :
    (clear (clear s true).state true).events = []
    ∧ ((clear s true).events ++ (clear (clear s true).state true).events).count
        Event.sessionInvalidationSucceeded ≤ 1 := by
  cases h : s.isAuthenticated <;> simp [clear, h]

/-- C10: the snapshot `setup` persists is built by merging the resolved
content onto the single-key object holding the factory, with the content
winning on collision: when the content itself carries an
"authenticatorFactory" entry with value v different from the bound
factory f, the persisted snapshot records v, not f. -/
theorem setup_persists_content_precedence (s : SessionState) (f v : String)
    (c : Content) (t : Bool)
    (hv : c.lookup "authenticatorFactory" = some v) (hne : v ≠ f) :
    (setup s (some f) c t).state.storeData.lookup "authenticatorFactory" = some v
    ∧ (setup s (some f) c t).state.storeData.lookup "authenticatorFactory" ≠ some f := by
  have h1 : (setup s (some f) c t).state.storeData.lookup "authenticatorFactory" = some v := by
    simp only [setup, extendFactory]
    exact lookup_append_of_eq_some hv
  refine ⟨h1, ?_⟩
  rw [h1]
  simpa using hne

/-- Witness for C10: content that itself carries
authenticatorFactory = "rogue" while the session binds factory
"password"; the store records "rogue". -/
theorem setup_persists_content_precedence_witness :
    (setup initState (some "password") [("authenticatorFactory", "rogue")] true).state.storeData.lookup
        "authenticatorFactory" = some "rogue" :=
  (setup_persists_content_precedence initState "password" "rogue"
    [("authenticatorFactory", "rogue")] true (by decide) (by decide)).1

/-- C5: when `invalidate` is called while authenticated and the
authenticator rejects with error e, the session state is completely
unchanged, exactly sessionInvalidationFailed with payload e fires, and
the returned promise rejects with exactly e. -/
theorem invalidate_failure_behavior (s : SessionState) (f : String) (e : Err)
    (h : s.authenticatorFactory = some f) :
    invalidate s (InvResult.failure e)
      = some ⟨s, [Event.sessionInvalidationFailed e], PResult.rejected (some e)⟩ := by
  simp [invalidate, h]

/-- Witness for C5 at the concrete authenticated example state. -/
theorem invalidate_failure_behavior_witness :
    invalidate exS1 (InvResult.failure "nope")
      = some ⟨exS1, [Event.sessionInvalidationFailed "nope"], PResult.rejected (some "nope")⟩ :=
  invalidate_failure_behavior exS1 "password" "nope" (by decide)

/-- C9: when the store snapshot carries a (truthy) authenticatorFactory
and the authenticator's restore resolves with content c, `restore` leaves
the session authenticated with that factory and content c, and emits no
event at all — in particular no sessionAuthenticationSucceeded. -/
theorem restore_success_silent (s : SessionState) (f : String) (c : Content)
    (h : s.storeData.lookup "authenticatorFactory" = some f) (hf : f ≠ "") :
    (restore s (AuthResult.success c)).state.isAuthenticated = true
    ∧ (restore s (AuthResult.success c)).state.authenticatorFactory = some f
    ∧ (restore s (AuthResult.success c)).state.content = c
    ∧ Event.sessionAuthenticationSucceeded ∉ (restore s (AuthResult.success c)).events := by
  simp [restore, truthyFactory, h, hf, setup]

/-- Witness for C9: scenario D — store holds a persisted "token" session,
the authenticator restores with token and user data. -/
theorem restore_success_silent_witness :
    (restore exStore (AuthResult.success [("token", "abc"), ("user", "u")])).state.isAuthenticated
      = true :=
  (restore_success_silent exStore "token" [("token", "abc"), ("user", "u")]
    (by decide) (by decide)).1

/-- C6: false as stated — at this concrete input the store snapshot
carries factory "token" and the authenticator's restore rejects with
"boom", yet the promise `restore` returns rejects with NO payload (the
handler calls reject with no argument), not with "boom". -/
theorem restore_drops_error_payload :
    (restore exStore (AuthResult.failure "boom")).result = PResult.rejected none
    ∧ (restore exStore (AuthResult.failure "boom")).result
        ≠ PResult.rejected (some "boom") := by
  decide

/-- C6 (amended): when the store snapshot carries a truthy factory and
the authenticator's restore rejects, `restore` clears the store, leaves
every session property unchanged, emits nothing, and rejects with no
payload — the authenticator's error is dropped, not propagated. -/
theorem restore_failure_rejects_without_payload (s : SessionState) (f : String) (e : Err)
    (h : s.storeData.lookup "authenticatorFactory" = some f) (hf : f ≠ "") :
    restore s (AuthResult.failure e)
      = ⟨{ s with storeData := [] }, [], PResult.rejected none⟩ := by
  simp [restore, truthyFactory, h, hf]

/-- Witness for C6's amended statement at the concrete store state. -/
theorem restore_failure_rejects_without_payload_witness :
    restore exStore (AuthResult.failure "denied")
      = ⟨{ exStore with storeData := [] }, [], PResult.rejected none⟩ :=
  restore_failure_rejects_without_payload exStore "token" "denied" (by decide) (by decide)

/-! Reachability of the concrete example states. -/

theorem exS1_reachable : Reachable exS1 :=
  Relation.ReflTransGen.single
    (Step.authenticate initState "password" (AuthResult.success [("token", "xyz")]) (by decide))

theorem exS2_reachable : Reachable exS2 :=
  Relation.ReflTransGen.tail exS1_reachable
    (Step.storeUpdated exS1 [] (AuthResult.failure "unused"))

theorem exS3_reachable : Reachable exS3 :=
  Relation.ReflTransGen.tail exS2_reachable
    (Step.authUpdated exS2 "password" [("token", "stale")] (by decide))

/-- C2: immediately after a completed `setup` the session is
authenticated and the store snapshot equals the session content merged
with the factory entry; immediately after `clear` the session is
unauthenticated and the store snapshot is empty; hence the same holds
after a successful `authenticate` (which ends in `setup`) and after a
successful `invalidate` (which ends in `clear`). -/
theorem store_snapshot_after_transitions (s : SessionState) (f : String) (c : Content) (t : Bool) :
    ((setup s (some f) c t).state.isAuthenticated = true
      ∧ (setup s (some f) c t).state.storeData
          = extendFactory f (setup s (some f) c t).state.content)
    ∧ ((clear s t).state.isAuthenticated = false ∧ (clear s t).state.storeData = [])
    ∧ ((authenticate s f (AuthResult.success c)).state.isAuthenticated = true
      ∧ (authenticate s f (AuthResult.success c)).state.storeData
          = extendFactory f (authenticate s f (AuthResult.success c)).state.content)
    ∧ (∀ out : OpOut, invalidate s InvResult.success = some out →
        out.state.isAuthenticated = false ∧ out.state.storeData = []) := by
  refine ⟨⟨rfl, rfl⟩, ⟨rfl, rfl⟩, ⟨rfl, rfl⟩, ?_⟩
  intro out hout
  cases hfac : s.authenticatorFactory with
  | none => simp [invalidate, hfac] at hout
  | some g =>
      simp [invalidate, hfac] at hout
      cases hout
      exact ⟨rfl, rfl⟩

/-- Witness for C2: successful invalidation from the concrete
authenticated example state leaves an empty store snapshot. -/
theorem store_snapshot_after_transitions_witness :
    ((invalidate exS1 InvResult.success).getD ⟨initState, [], PResult.resolved⟩).state.storeData
      = [] :=
  ((store_snapshot_after_transitions exS1 "password" [] true).2.2.2
    ((invalidate exS1 InvResult.success).getD ⟨initState, [], PResult.resolved⟩)
    (by decide)).2

/-- C3: false as stated — after a successful `invalidate` from the
concrete authenticated example state, the previously bound "password"
authenticator has subscription counts (updated, invalidated) = (0, 1):
its sessionDataUpdated handler is gone, but its sessionDataInvalidated
handler is still live, so not both subscriptions were torn down. -/
theorem invalidate_keeps_invalidated_handler :
    (invalidate exS1 InvResult.success).map (fun o => getSubs o.state.subs "password")
        = some ⟨0, 1⟩
    ∧ (invalidate exS1 InvResult.success).map (fun o => getSubs o.state.subs "password")
        ≠ some ⟨0, 0⟩ := by
  decide

theorem subs_bound_after_set {m : SubsMap} {f : String} {v : Subs}
    (hm : ∀ a, (getSubs m a).updated ≤ 1 ∧ (getSubs m a).invalidated ≤ 1)
    (hv : v.updated ≤ 1 ∧ v.invalidated ≤ 1) :
    ∀ a, (getSubs (setSubs m f v) a).updated ≤ 1
      ∧ (getSubs (setSubs m f v) a).invalidated ≤ 1 := by
  intro a
  by_cases ha : a = f
  · subst ha
    rw [getSubs_setSubs_self]
    exact hv
  · rw [getSubs_setSubs_other m f a v ha]
    exact hm a

theorem step_subs_le_one {s s2 : SessionState} (hs : Step s s2)
    (ih : ∀ a, (getSubs s.subs a).updated ≤ 1 ∧ (getSubs s.subs a).invalidated ≤ 1) :
    ∀ a, (getSubs s2.subs a).updated ≤ 1 ∧ (getSubs s2.subs a).invalidated ≤ 1 := by
  cases hs with
  | authenticate f r hf =>
      cases r with
      | success c =>
          simpa [authenticate, setup, bindToAuthenticatorEvents]
            using subs_bound_after_set ih (by simp)
      | failure e => simpa [authenticate, clear] using ih
  | invalidate r out hout =>
      cases hfac : s.authenticatorFactory with
      | none => simp [invalidate, hfac] at hout
      | some g =>
          cases r with
          | success =>
              simp [invalidate, hfac] at hout
              cases hout
              simpa [clear, offSessionDataUpdated]
                using subs_bound_after_set ih (by simpa using (ih g).2)
          | failure e =>
              simp [invalidate, hfac] at hout
              cases hout
              simpa using ih
  | restore r =>
      cases htf : truthyFactory (s.storeData.lookup "authenticatorFactory") with
      | none => simpa [restore, htf] using ih
      | some g =>
          cases r with
          | success c =>
              simpa [restore, htf, setup, bindToAuthenticatorEvents]
                using subs_bound_after_set ih (by simp)
          | failure e => simpa [restore, htf] using ih
  | storeUpdated pushed r =>
      cases htf : truthyFactory (pushed.lookup "authenticatorFactory") with
      | none => simpa [storeUpdated, htf, clear] using ih
      | some g =>
          cases r with
          | success c =>
              simpa [storeUpdated, htf, setup, bindToAuthenticatorEvents]
                using subs_bound_after_set ih (by simp)
          | failure e => simpa [storeUpdated, htf, clear] using ih
  | authUpdated a c h =>
      cases hfac : s.authenticatorFactory with
      | none => simpa [authenticatorUpdated, setup, hfac] using ih
      | some g =>
          simpa [authenticatorUpdated, setup, hfac, bindToAuthenticatorEvents]
            using subs_bound_after_set ih (by simp)
  | authInvalidated a h =>
      simpa [authenticatorInvalidated, clear] using ih

/-- Any reachable state has at most one live handler per authenticator
event: `bindToAuthenticatorEvents` always unsubscribes before
resubscribing, and nothing else adds handlers. -/
theorem reachable_subs_le_one (s : SessionState) (h : Reachable s) :
    ∀ a, (getSubs s.subs a).updated ≤ 1 ∧ (getSubs s.subs a).invalidated ≤ 1 := by
  induction h with
  | refl => intro a; simp [initState, getSubs]
  | tail h1 hstep ih => exact step_subs_le_one hstep ih

/-- C3 (amended): a successful `invalidate` tears down only the
sessionDataUpdated subscription of the previously bound authenticator;
its sessionDataInvalidated subscription count is left unchanged (so one
handler remains live).  The "at most one live subscription pair per
authenticator" part does hold on every reachable state. -/
theorem invalidate_unbinds_updated_only (s : SessionState) (f : String) (out : OpOut)
    (hr : Reachable s)
    (hf : s.authenticatorFactory = some f)
    (h : invalidate s InvResult.success = some out) :
    (getSubs out.state.subs f).updated = 0
    ∧ (getSubs out.state.subs f).invalidated = (getSubs s.subs f).invalidated
    ∧ (∀ a, (getSubs s.subs a).updated ≤ 1 ∧ (getSubs s.subs a).invalidated ≤ 1) := by
  simp [invalidate, hf] at h
  cases h
  refine ⟨?_, ?_, reachable_subs_le_one s hr⟩
  · simp [clear, offSessionDataUpdated, getSubs_setSubs_self]
  · simp [clear, offSessionDataUpdated, getSubs_setSubs_self]

/-- Witness for C3's amended statement, at the concrete authenticated
example state. -/
theorem invalidate_unbinds_updated_only_witness :
    (getSubs ((invalidate exS1 InvResult.success).getD
        ⟨initState, [], PResult.resolved⟩).state.subs "password").updated = 0 :=
  (invalidate_unbinds_updated_only exS1 "password"
    ((invalidate exS1 InvResult.success).getD ⟨initState, [], PResult.resolved⟩)
    exS1_reachable (by decide) (by decide)).1

/-- C1: false as stated — exS3 is reachable (authenticate "password";
a store-pushed update without factory clears the session; the stale,
still-bound "password" sessionDataUpdated handler then re-runs setup with
the now-null factory), and it has isAuthenticated = true while
authenticatorFactory = null. -/
theorem reachable_breaks_I1 :
    ¬ (∀ s : SessionState, Reachable s →
        (s.isAuthenticated = true ↔ s.authenticatorFactory ≠ none)) := by
  intro hall
  have h := (hall exS3 exS3_reachable).mp (by decide)
  exact h (by decide)

/-- One well-behaved transition preserves invariant I1. -/
theorem stepSafe_preserves_I1 {s s2 : SessionState} (hs : StepSafe s s2)
    (ih : s.isAuthenticated = true ↔ s.authenticatorFactory ≠ none) :
    s2.isAuthenticated = true ↔ s2.authenticatorFactory ≠ none := by
  cases hs with
  | authenticate f r hf =>
      cases r with
      | success c => simp [authenticate, setup]
      | failure e => simp [authenticate, clear]
  | invalidate r out hout =>
      cases hfac : s.authenticatorFactory with
      | none => simp [invalidate, hfac] at hout
      | some g =>
          cases r with
          | success =>
              simp [invalidate, hfac] at hout
              cases hout
              simp [clear]
          | failure e =>
              simp [invalidate, hfac] at hout
              cases hout
              simpa [hfac] using ih
  | restore r =>
      cases htf : truthyFactory (s.storeData.lookup "authenticatorFactory") with
      | none => simpa [restore, htf] using ih
      | some g =>
          cases r with
          | success c => simp [restore, htf, setup]
          | failure e => simpa [restore, htf] using ih
  | storeUpdated pushed r =>
      cases htf : truthyFactory (pushed.lookup "authenticatorFactory") with
      | none => simp [storeUpdated, htf, clear]
      | some g =>
          cases r with
          | success c => simp [storeUpdated, htf, setup]
          | failure e => simp [storeUpdated, htf, clear]
  | authUpdated a c h hb =>
      obtain ⟨g, hg⟩ := Option.ne_none_iff_exists'.mp hb
      simp [authenticatorUpdated, hg, setup]
  | authInvalidated a h =>
      simp [authenticatorInvalidated, clear]

/-- C1 (amended): the invariant isAuthenticated = true iff
authenticatorFactory is non-null holds on every state reachable when
authenticator-pushed sessionDataUpdated events are delivered only while
a factory is actually bound; the unrestricted claim fails because `clear`
leaves the old authenticator's handlers live. -/
theorem isAuthenticated_iff_factory_of_safe (s : SessionState) (h : ReachableSafe s) :
    s.isAuthenticated = true ↔ s.authenticatorFactory ≠ none := by
  induction h with
  | refl => simp [initState]
  | tail h1 hstep ih => exact stepSafe_preserves_I1 hstep ih

/-- Witness for C1's amended statement at the initial state, reachable by
the empty trace. -/
theorem isAuthenticated_iff_factory_of_safe_witness :
    initState.isAuthenticated = true ↔ initState.authenticatorFactory ≠ none :=
  isAuthenticated_iff_factory_of_safe initState Relation.ReflTransGen.refl

end SimpleAuth
